import Mathlib

/-
Verification development for the AgentAI repository.

The development shallowly embeds the two core components of the repository:

* `tools/rag_food_tool.py` — the similarity-based food-matching engine
  (`_lookup_items_batch`) and the meal-footprint aggregator
  (`compute_meal_footprint`);
* `app.py` — the conversation orchestrator (`CarbonAgent._run_one_step_with_tools`
  and `CarbonAgent.chat`), including the token tracker and the one-time
  environmental-impact report.

Modelling conventions:
* Python `float` values are embedded as exact rationals (`ℚ`); the claims under
  study are about the arithmetic relationships the code establishes, not about
  binary rounding.
* External collaborators are oracles passed as parameters: the FAISS vector
  store is a function `String → Except String (List SearchHit)` (the `.error`
  case stands for an exception raised inside `similarity_search_with_score`
  or the subsequent metadata access); `json.loads` is a function
  `String → Except String JVal`; the external chat model is a stream
  `ℕ → ModelResponse`; tool dispatch is a total function `ToolCall → String`
  (the dispatch block of `_run_one_step_with_tools`, app.py lines 336–391,
  catches every exception and produces a result string on every path).
* Python dictionaries produced by `json.loads` are association lists; key
  lookup takes the first matching key.
* Serialization (`json.dumps`) is abstracted: the tool returns the structured
  value that the source serializes.
-/

/-! ## JSON values (results of Python `json.loads`) -/

/-- A JSON value as produced by Python `json.loads`. -/
inductive JVal where
  | null
  | bool (b : Bool)
  | num (q : ℚ)
  | str (s : String)
  | arr (elems : List JVal)
  | obj (fields : List (String × JVal))
deriving Repr

/-- Key lookup in a decoded JSON object (Python `dict` indexing). -/
def objGet : List (String × JVal) → String → Option JVal
  | [], _ => none
  | (k, v) :: rest, key => if k = key then some v else objGet rest key

/-- Python `d.get(key, default)` on a decoded JSON object. -/
def dictGet (fields : List (String × JVal)) (key : String) (dflt : JVal) : JVal :=
  (objGet fields key).getD dflt

/-- Python `str(...)` applied to a decoded JSON value.  String values pass
through unchanged; the rendering of non-string values is abbreviated (the
tool's payloads carry string names, and no claim depends on the rendering of
a non-string `name`). -/
def pyStr : JVal → String
  | .str s => s
  | .num q => toString q
  | .bool b => if b then "True" else "False"
  | .null => "None"
  | .arr _ => "[...]"
  | .obj _ => "\x7b...\x7d"

/-- Python `str.strip()`: drop leading and trailing whitespace.  Implemented
over the character list so that concrete payloads evaluate by kernel
reduction. -/
def pyStrip (s : String) : String :=
  ⟨((s.data.dropWhile Char.isWhitespace).reverse.dropWhile Char.isWhitespace).reverse⟩

/-- Whether a list of characters is nonempty and all decimal digits. -/
def allDigits (cs : List Char) : Bool :=
  cs.all (fun c => c.isDigit)

/-- Numeric value of a list of decimal digits. -/
def natOfDigits (cs : List Char) : ℕ :=
  cs.foldl (fun a c => a * 10 + (c.toNat - 48)) 0

/-- Python `float(s)` on a string, for plain decimal literals
`[+-]digits[.digits]`.  Exotic forms (exponents, `inf`, `nan`, underscores)
are not modelled; the tool's payloads carry plain JSON numbers and no claim
exercises them. -/
def pyFloatOfString (s : String) : Option ℚ :=
  let t := pyStrip s
  let (sign, body) :=
    if t.startsWith "-" then ((-1 : ℚ), t.drop 1)
    else if t.startsWith "+" then ((1 : ℚ), t.drop 1)
    else ((1 : ℚ), t)
  match body.splitOn "." with
  | [intp] =>
      if intp ≠ "" ∧ allDigits intp.toList then
        some (sign * (natOfDigits intp.toList : ℚ))
      else none
  | [intp, fracp] =>
      if (intp ≠ "" ∨ fracp ≠ "") ∧ allDigits intp.toList ∧ allDigits fracp.toList then
        some (sign * ((natOfDigits intp.toList : ℚ) +
          (natOfDigits fracp.toList : ℚ) / (10 : ℚ) ^ fracp.length))
      else none
  | _ => none

/-- Python `float(...)` applied to a decoded JSON value.  The `.error` cases
are the `TypeError`/`ValueError` exceptions Python raises. -/
def pyFloat : JVal → Except String ℚ
  | .num q => .ok q
  | .bool b => .ok (if b then 1 else 0)
  | .str s =>
      match pyFloatOfString s with
      | some q => .ok q
      | none => .error ("could not convert string to float: " ++ s)
  | .null => .error "float() argument must be a string or a real number, not NoneType"
  | .arr _ => .error "float() argument must be a string or a real number, not list"
  | .obj _ => .error "float() argument must be a string or a real number, not dict"

/-! ## Matching engine (`tools/rag_food_tool.py`) -/

/-- One hit returned by `vectorstore.similarity_search_with_score(name, k=1)`:
the document's metadata (`item_name`, `cf_kg_per_kg`) and the raw distance. -/
structure SearchHit where
  item_name : String
  cf_kg_per_kg : ℚ
  distance : ℚ
deriving Repr, DecidableEq

/-- The vector store as an oracle.  `.error` stands for an exception raised
during the similarity search (rag_food_tool.py lines 137–173 wrap the lookup
in `try`/`except`). -/
def Store : Type := String → Except String (List SearchHit)

/-- `SIMILARITY_THRESHOLD` (rag_food_tool.py line 20). -/
def SIMILARITY_THRESHOLD : ℚ := 0.60

/-- One per-item result dictionary built by `_lookup_items_batch`
(rag_food_tool.py lines 121–175).  `notes := none` models the absence of the
`"notes"` key. -/
structure MatchResult where
  input_name : String
  matched_item : Option String
  mass_g : ℚ
  source : String
  similarity_score : Option ℚ
  cf_kg_per_kg : Option ℚ
  emissions_kg_co2 : Option ℚ
  notes : Option String
deriving Repr, DecidableEq

/-- Note text of the below-threshold branch (rag_food_tool.py lines 154–157). -/
def lowSimilarityNote : String :=
  "Best match is not similar enough in the embedding space; marked as unknown so the LLM may approximate from its own knowledge."

/-- The loop body of `_lookup_items_batch` for a single `(name, mass_g)` pair
(rag_food_tool.py lines 121–175). -/
def lookup_item (store : Store) (name : String) (mass_g : ℚ) : MatchResult :=
  let base : MatchResult :=
    { input_name := name
      matched_item := none
      mass_g := mass_g
      source := "unknown"
      similarity_score := none
      cf_kg_per_kg := none
      emissions_kg_co2 := none
      notes := none }
  if name = "" ∨ mass_g ≤ 0 then
    { base with notes := some "Empty name or non-positive mass." }
  else
    match store name with
    | .error exc => { base with notes := some ("Error during lookup: " ++ exc) }
    | .ok [] => { base with notes := some "No matches found in database." }
    | .ok (hit :: _) =>
        let similarity := 1 - hit.distance / 2
        if similarity < SIMILARITY_THRESHOLD then
          { base with
              similarity_score := some similarity
              notes := some lowSimilarityNote }
        else
          { base with
              similarity_score := some similarity
              matched_item := some hit.item_name
              cf_kg_per_kg := some hit.cf_kg_per_kg
              emissions_kg_co2 := some (hit.cf_kg_per_kg * (mass_g / 1000))
              source := "database" }

/-- `_lookup_items_batch` (rag_food_tool.py lines 109–177).  The `Option Store`
argument is the module-global `_vectorstore`; the `.error` result is the
`RuntimeError` raised on line 114 when it is `None`, which propagates to the
caller. -/
def lookup_items_batch (vs : Option Store) (names : List String) (masses_g : List ℚ) :
    Except String (List MatchResult) :=
  match vs with
  | none => .error "Vectorstore not initialized. Call warm_up_rag() first."
  | some store =>
      if names = [] then .ok []
      else .ok ((names.zip masses_g).map fun p => lookup_item store p.1 p.2)

/-! ## Meal footprint aggregator (`compute_meal_footprint`) -/

/-- The body of the item-collection loop of `compute_meal_footprint`
(rag_food_tool.py lines 208–220) for one raw item: `.ok none` means the item
is skipped (`continue`); `.error` is an uncaught Python exception
(`AttributeError` on a non-dict item, `TypeError`/`ValueError` from
`float(...)`). -/
def parseItem (item : JVal) : Except String (Option (String × ℚ)) :=
  match item with
  | .obj fields =>
      let name := pyStrip (pyStr (dictGet fields "name" (.str "")))
      (match pyFloat (dictGet fields "mass_g" (.num 0)) with
      | .error exc => .error exc
      | .ok g =>
          match pyFloat (dictGet fields "mass_ml" (.num 0)) with
          | .error exc => .error exc
          | .ok ml =>
              let mass := if g ≤ 0 ∧ 0 < ml then ml else g
              if name = "" ∨ mass ≤ 0 then .ok none else .ok (some (name, mass)))
  | _ => .error "AttributeError: item has no attribute get"

/-- The item-collection loop of `compute_meal_footprint`
(rag_food_tool.py lines 205–220), producing the kept `(name, mass_g)` pairs
in order. -/
def collectItems : List JVal → Except String (List (String × ℚ))
  | [] => .ok []
  | item :: rest =>
      match parseItem item with
      | .error exc => .error exc
      | .ok r =>
          match collectItems rest with
          | .error exc => .error exc
          | .ok tail =>
              match r with
              | none => .ok tail
              | some p => .ok (p :: tail)

/-- The trusted-total accumulation loop of `compute_meal_footprint`
(rag_food_tool.py lines 224–229). -/
def totalDb (rs : List MatchResult) : ℚ :=
  rs.foldl
    (fun acc r =>
      if r.source == "database" && r.emissions_kg_co2.isSome then
        acc + r.emissions_kg_co2.getD 0
      else acc)
    0

/-- The `any_unknown` flag of `compute_meal_footprint`
(rag_food_tool.py lines 225–231). -/
def anyUnknown (rs : List MatchResult) : Bool :=
  rs.any (fun r => !(r.source == "database" && r.emissions_kg_co2.isSome))

/-- Note text appended when some items are unknown
(rag_food_tool.py lines 240–245). -/
def unknownItemsNote : String :=
  "Some items could not be confidently matched to the database and are marked with source=\x27unknown\x27. The LLM may approximate their CO2 using its own knowledge but should clearly explain this to the user."

/-- The output dictionary of a successful `compute_meal_footprint` run
(rag_food_tool.py lines 233–245). -/
structure MealOut where
  meal_label : JVal
  items : List MatchResult
  total_emissions_kg_co2_database_only : ℚ
  notes : String
deriving Repr

/-- The three shapes of value `compute_meal_footprint` serializes and returns:
the invalid-JSON error object (lines 189–193), the items-not-a-list error
object (lines 199–203), and the report (lines 233–247). -/
inductive ToolOut where
  | errStr (error : String) (raw_payload : String)
  | errJson (error : String) (raw_payload : JVal)
  | report (r : MealOut)
deriving Repr

/-- `compute_meal_footprint` (rag_food_tool.py lines 180–247).  `jsonLoads`
is the `json.loads` oracle applied to the payload string; a top-level
`.error` result is an uncaught Python exception (the `RuntimeError` from
`_lookup_items_batch`, or an item-parsing exception). -/
def compute_meal_footprint (vs : Option Store)
    (jsonLoads : String → Except String JVal) (payload : String) :
    Except String ToolOut :=
  match jsonLoads payload with
  | .error exc => .ok (.errStr ("Invalid JSON payload: " ++ exc) payload)
  | .ok data =>
      match data with
      | .obj fields =>
          let meal_label := dictGet fields "meal_label" (.str "meal")
          let items := dictGet fields "items" (.arr [])
          (match items with
          | .arr itemList =>
              (match collectItems itemList with
              | .error exc => .error exc
              | .ok pairs =>
                  match lookup_items_batch vs (pairs.map (·.1)) (pairs.map (·.2)) with
                  | .error exc => .error exc
                  | .ok results =>
                      .ok (.report
                        { meal_label := meal_label
                          items := results
                          total_emissions_kg_co2_database_only := totalDb results
                          notes := if anyUnknown results then unknownItemsNote else "" }))
          | _ => .ok (.errJson "Expected \x27items\x27 to be a list." data))
      | _ => .error "AttributeError: data has no attribute get"

/-! ## Conversation orchestrator (`app.py`) -/

/-- One tool-call request carried by an assistant response
(`tool_call.id`, `tool_call.function.name`, `tool_call.function.arguments`). -/
structure ToolCall where
  id : String
  name : String
  arguments : String
deriving Repr, DecidableEq

/-- The `usage` record of a Mistral response (app.py lines 40–53 normalize it
to the three integer fields). -/
structure Usage where
  prompt_tokens : ℕ
  completion_tokens : ℕ
  total_tokens : ℕ
deriving Repr, DecidableEq

/-- One external-model response: `choices[0].message` plus `usage`
(app.py lines 302–311).  `content` is `Option` because the SDK may return
`None` (line 316 uses `content or ""`). -/
structure ModelResponse where
  content : Option String
  tool_calls : List ToolCall
  usage : Option Usage
deriving Repr, DecidableEq

/-- One entry of `CarbonAgent.messages` (the provider-facing history). -/
inductive Msg where
  | system (content : String)
  | user (content : String)
  | assistant (content : Option String) (tool_calls : List ToolCall)
  | tool (name : String) (tool_call_id : String) (content : String)
deriving Repr, DecidableEq

/-- One entry of `CarbonAgent.display_history` (the user-facing transcript). -/
structure DisplayMsg where
  role : String
  content : String
deriving Repr, DecidableEq

/-- `TokenTracker` (app.py lines 25–87). -/
structure TokenTracker where
  prompt_tokens : ℕ := 0
  completion_tokens : ℕ := 0
  total_tokens : ℕ := 0
  calls : ℕ := 0
  vision_calls : ℕ := 0
  vision_total_tokens : ℕ := 0
deriving Repr, DecidableEq

/-- `TokenTracker.add_from_mistral_response` (app.py lines 55–77).  A missing
`usage` is skipped; `int(usage_dict.get("total_tokens", 0)) or (p + c)` is the
Python `or` on a possibly-zero total. -/
def TokenTracker.addFromResponse (t : TokenTracker) (usage : Option Usage)
    (is_vision : Bool) : TokenTracker :=
  match usage with
  | none => t
  | some u =>
      let p := u.prompt_tokens
      let c := u.completion_tokens
      let tot := if u.total_tokens = 0 then p + c else u.total_tokens
      { prompt_tokens := t.prompt_tokens + p
        completion_tokens := t.completion_tokens + c
        total_tokens := t.total_tokens + tot
        calls := t.calls + 1
        vision_calls := if is_vision then t.vision_calls + 1 else t.vision_calls
        vision_total_tokens :=
          if is_vision then t.vision_total_tokens + tot else t.vision_total_tokens }

/-- Default `TOKEN_CO2_G_PER_1K` conversion factor (app.py line 96; the
environment-variable override is not modelled). -/
def TOKEN_CO2_G_PER_1K : ℚ := 0.4

/-- Default `CAR_CO2_G_PER_KM` conversion factor (app.py line 97). -/
def CAR_CO2_G_PER_KM : ℚ := 120

/-- `_tokens_to_co2_and_km` (app.py lines 90–109), returning
`(co2_g, co2_kg, km)`. -/
def tokens_to_co2_and_km (total_tokens : ℕ) : ℚ × ℚ × ℚ :=
  let co2_g := ((total_tokens : ℚ) / 1000) * TOKEN_CO2_G_PER_1K
  let co2_kg := co2_g / 1000
  let km := if 0 < CAR_CO2_G_PER_KM then co2_g / CAR_CO2_G_PER_KM else 0
  (co2_g, co2_kg, km)

/-- `CarbonAgent._render_token_report` (app.py lines 270–285): the derived
environmental-impact summary (token totals, CO2 grams, car-kilometre
equivalent).  Python `f"{x:.2f}"` fixed-point formatting and markdown
emphasis are presentation details abstracted by `toString`; the claims under
study concern when this report is appended, not its decimal rendering. -/
def render_token_report (t : TokenTracker) : String :=
  let conv := tokens_to_co2_and_km t.total_tokens
  let headLines : List String :=
    ["### Token and CO2 estimate for this conversation",
     "- Total tokens: " ++ toString t.total_tokens ++ " (prompt: " ++
       toString t.prompt_tokens ++ ", completion: " ++
       toString t.completion_tokens ++ ")"]
  let visionLines : List String :=
    if 0 < t.vision_calls then
      ["- Vision tokens (included above): " ++ toString t.vision_total_tokens ++
        " across " ++ toString t.vision_calls ++ " vision call(s)"]
    else []
  let tailLines : List String :=
    ["- Estimated CO2 from tokens: " ++ toString conv.1 ++ " g CO2e (" ++
       toString conv.2.1 ++ " kg)",
     "- Car-equivalent distance: " ++ toString conv.2.2 ++ " km (using " ++
       toString CAR_CO2_G_PER_KM ++ " g CO2/km)",
     "",
     "Note: This token to CO2 conversion uses configurable factors."]
  String.intercalate "\n" (headLines ++ visionLines ++ tailLines)

/-- The mutable session state of a `CarbonAgent`
(app.py lines 213–253): provider-facing history, user-facing transcript,
`_health_analysis_called`, `_token_report_sent`, and the token tracker. -/
structure AgentState where
  messages : List Msg
  display_history : List DisplayMsg
  health_analysis_called : Bool
  token_report_sent : Bool
  tracker : TokenTracker
deriving Repr, DecidableEq

/-- Tool dispatch as a total oracle.  The dispatch block of
`_run_one_step_with_tools` (app.py lines 327–381) parses the arguments,
resolves the tool name, and catches every exception, producing a result
string on every path; the claims under study do not depend on which path
produced the string. -/
def ToolExec : Type := ToolCall → String

/-- The per-tool-call loop of `_run_one_step_with_tools`
(app.py lines 327–391): sets `_health_analysis_called` for the designated
final-analysis tool and appends exactly one `tool` message per request,
carrying the request's `tool_call_id`, in request order. -/
def processToolCalls (te : ToolExec) : AgentState → List ToolCall → AgentState
  | st, [] => st
  | st, tc :: rest =>
      let st1 := { st with
        health_analysis_called :=
          st.health_analysis_called || (tc.name == "evaluate_meal_healthiness") }
      let st2 := { st1 with
        messages := st1.messages ++ [Msg.tool tc.name tc.id (te tc)] }
      processToolCalls te st2 rest

/-- `max_tool_loops` (app.py line 299). -/
def max_tool_loops : ℕ := 5

/-- The fixed fallback message (app.py line 394). -/
def fallbackMessage : String :=
  "I\x27m sorry, something went wrong while coordinating tools. Please try rephrasing your last message."

/-- The bounded step loop of `_run_one_step_with_tools`
(app.py lines 299–396).  `oracle i` is the response of the `i`-th external
model call of this step; the fuel argument counts the remaining iterations of
`for _ in range(max_tool_loops)`.  Returns the post-loop state and the string
returned to the caller. -/
def run_step_loop (te : ToolExec) (oracle : ℕ → ModelResponse) :
    ℕ → ℕ → AgentState → AgentState × String
  | 0, _, st =>
      ({ st with
          display_history :=
            st.display_history ++ [DisplayMsg.mk "assistant" fallbackMessage] },
        fallbackMessage)
  | n + 1, i, st =>
      let resp := oracle i
      let st0 := { st with tracker := st.tracker.addFromResponse resp.usage false }
      if resp.tool_calls.isEmpty then
        let st1 := { st0 with
          messages := st0.messages ++ [Msg.assistant resp.content resp.tool_calls] }
        let content := resp.content.getD ""
        if st1.health_analysis_called && !st1.token_report_sent then
          let content1 := content ++ "\n\n" ++ render_token_report st1.tracker
          ({ st1 with
              token_report_sent := true
              display_history :=
                st1.display_history ++ [DisplayMsg.mk "assistant" content1] },
            content1)
        else
          ({ st1 with
              display_history :=
                st1.display_history ++ [DisplayMsg.mk "assistant" content] },
            content)
      else
        let st1 := { st0 with
          messages := st0.messages ++ [Msg.assistant resp.content resp.tool_calls] }
        let st2 := processToolCalls te st1 resp.tool_calls
        run_step_loop te oracle n (i + 1) st2

/-- `CarbonAgent.chat` (app.py lines 398–401): append the user message to both
histories, then run one step with tools. -/
def chat (te : ToolExec) (oracle : ℕ → ModelResponse) (st : AgentState)
    (user_message : String) : AgentState × String :=
  let st1 := { st with
    messages := st.messages ++ [Msg.user user_message]
    display_history := st.display_history ++ [DisplayMsg.mk "user" user_message] }
  run_step_loop te oracle max_tool_loops 0 st1

/-! ## Specification-side views of the loop -/

/-- The block of `tool` messages the loop appends for a list of tool-call
requests, in request order (app.py lines 383–391). -/
def toolMsgsFor (te : ToolExec) (tcs : List ToolCall) : List Msg :=
  tcs.map fun tc => Msg.tool tc.name tc.id (te tc)

/-- Alignment checker for the core protocol invariant: scanning the history
left to right, every assistant message carrying `N` tool-call requests must
be followed immediately by `N` tool-role messages whose `tool_call_id`s (and
tool names) are exactly those of the requests, in the same order.  The first
argument is the queue of requests still awaiting their tool message. -/
def alignedFrom : List ToolCall → List Msg → Bool
  | [], [] => true
  | [], Msg.system _ :: rest => alignedFrom [] rest
  | [], Msg.user _ :: rest => alignedFrom [] rest
  | [], Msg.assistant _ tcs :: rest => alignedFrom tcs rest
  | [], Msg.tool _ _ _ :: rest => alignedFrom [] rest
  | _ :: _, [] => false
  | tc :: tcs, Msg.tool nm tid _ :: rest =>
      nm == tc.name && tid == tc.id && alignedFrom tcs rest
  | _ :: _, Msg.system _ :: _ => false
  | _ :: _, Msg.user _ :: _ => false
  | _ :: _, Msg.assistant _ _ :: _ => false

/-- A history satisfies the tool-call/tool-result alignment invariant. -/
def alignedMessages (ms : List Msg) : Bool :=
  alignedFrom [] ms

/-- The provider-facing history produced by `n` consecutive tool-call-bearing
iterations of the step loop, starting at model-call index `i`: each iteration
appends the assistant message and one tool message per request, and nothing
else. -/
def exhaustedMessages (te : ToolExec) (oracle : ℕ → ModelResponse) :
    ℕ → ℕ → List Msg → List Msg
  | 0, _, ms => ms
  | n + 1, i, ms =>
      let r := oracle i
      exhaustedMessages te oracle n (i + 1)
        (ms ++ [Msg.assistant r.content r.tool_calls] ++ toolMsgsFor te r.tool_calls)

/-- Specification-side view of one run of the step loop, read off the model
responses alone: `none` when the iteration bound is exhausted with every
response carrying tool calls; `some (content, health, tracker)` when a
no-tool-call response terminates the loop, with the raw answer text, the
value of `_health_analysis_called` at that moment, and the token tracker
after the terminal call's usage was accumulated. -/
def loopView (oracle : ℕ → ModelResponse) :
    ℕ → ℕ → Bool → TokenTracker → Option (String × Bool × TokenTracker)
  | 0, _, _, _ => none
  | n + 1, i, health, tr =>
      let r := oracle i
      let tr1 := tr.addFromResponse r.usage false
      if r.tool_calls.isEmpty then
        some (r.content.getD "", health, tr1)
      else
        loopView oracle n (i + 1)
          (health || r.tool_calls.any (fun tc => tc.name == "evaluate_meal_healthiness")) tr1

/-! ## Concrete fixtures used by witnesses and counterexamples -/

/-- A store whose single catalog neighbor is `pork sausage` with emission
factor 5.0 kg CO2e/kg at distance 0.5 (similarity 0.75). -/
def storeA : Store := fun _ => .ok [⟨"pork sausage", 5, 1/2⟩]

/-- A store whose best neighbor is at distance 1 (similarity 0.5, below the
threshold). -/
def storeLow : Store := fun _ => .ok [⟨"far item", 2, 1⟩]

/-- A store whose lookup always raises. -/
def storeErr : Store := fun _ => .error "boom"

/-- Parse oracle for Scenario A: `\x7b"meal_label": "lunch", "items":
[\x7b"name": "pork sausage", "mass_g": 120\x7d]\x7d`. -/
def jlA : String → Except String JVal := fun _ =>
  .ok (.obj [("meal_label", .str "lunch"),
             ("items", .arr [.obj [("name", .str "pork sausage"), ("mass_g", .num 120)]])])

/-- Parse oracle for a payload whose `mass_g` is present, nonzero and
negative while `mass_ml` is 200. -/
def jlMl : String → Except String JVal := fun _ =>
  .ok (.obj [("meal_label", .str "lunch"),
             ("items", .arr [.obj [("name", .str "soup"), ("mass_g", .num (-5)),
                                   ("mass_ml", .num 200)]])])

/-- Parse oracle for a malformed payload (`json.loads` raises). -/
def jlBad : String → Except String JVal := fun _ => .error "Expecting value"

/-- Parse oracle for a payload whose `items` field is a number, not a list. -/
def jlNotList : String → Except String JVal := fun _ =>
  .ok (.obj [("items", .num 3)])

/-- Parse oracle for the empty JSON object payload. -/
def jlEmpty : String → Except String JVal := fun _ => .ok (.obj [])

/-- A tool-exec oracle returning a fixed result string. -/
def teK : ToolExec := fun _ => "\x7b\"ok\": true\x7d"

/-- A model oracle that always requests one tool call. -/
def orTools : ℕ → ModelResponse := fun i =>
  { content := none
    tool_calls := [⟨"id" ++ toString i, "compute_meal_footprint", "\x7b\x7d"⟩]
    usage := none }

/-- A model oracle whose first response requests two tool calls and whose
second response is a plain answer. -/
def orMixed : ℕ → ModelResponse := fun i =>
  if i = 0 then
    { content := none
      tool_calls := [⟨"a1", "compute_meal_footprint", "\x7b\x7d"⟩,
                     ⟨"a2", "get_food_nutrition", "\x7b\x7d"⟩]
      usage := none }
  else
    { content := some "Here is your answer."
      tool_calls := []
      usage := some ⟨100, 20, 0⟩ }

/-- A fresh session state with an aligned (empty) history. -/
def st0 : AgentState :=
  { messages := []
    display_history := []
    health_analysis_called := false
    token_report_sent := false
    tracker := {} }

/-- The report produced for Scenario A (`storeA`, `jlA`): 120 g of
`pork sausage` at factor 5.0 kg/kg, similarity 0.75, emissions 0.6 kg. -/
def reportA : MealOut :=
  { meal_label := .str "lunch"
    items := [{ input_name := "pork sausage"
                matched_item := some "pork sausage"
                mass_g := 120
                source := "database"
                similarity_score := some (3/4)
                cf_kg_per_kg := some 5
                emissions_kg_co2 := some (3/5)
                notes := none }]
    total_emissions_kg_co2_database_only := 3/5
    notes := "" }

/-- The report produced for Scenario B (`storeLow`, `jlA`): the best match is
at similarity 0.5, below the threshold, so the item is unknown with no
emissions and the unknown-items note is set. -/
def reportU : MealOut :=
  { meal_label := .str "lunch"
    items := [{ input_name := "pork sausage"
                matched_item := none
                mass_g := 120
                source := "unknown"
                similarity_score := some (1/2)
                cf_kg_per_kg := none
                emissions_kg_co2 := none
                notes := some lowSimilarityNote }]
    total_emissions_kg_co2_database_only := 0
    notes := unknownItemsNote }

/-- The report produced for the `jlMl` payload against `storeA`: the item
with `mass_g = -5` and `mass_ml = 200` is matched with effective mass 200 g. -/
def reportMl : MealOut :=
  { meal_label := .str "lunch"
    items := [{ input_name := "soup"
                matched_item := some "pork sausage"
                mass_g := 200
                source := "database"
                similarity_score := some (3/4)
                cf_kg_per_kg := some 5
                emissions_kg_co2 := some 1
                notes := none }]
    total_emissions_kg_co2_database_only := 1
    notes := "" }

/-! ## Alignment lemmas -/

/-- Appending to an aligned history restarts the scan on the appended part. -/
theorem alignedFrom_append (ms : List Msg) : ∀ (p : List ToolCall) (ms' : List Msg),
    alignedFrom p ms = true → alignedFrom p (ms ++ ms') = alignedFrom [] ms' := by
  induction ms with
  | nil =>
      intro p ms' h
      cases p with
      | nil => simp
      | cons tc tcs => simp [alignedFrom] at h
  | cons m rest ih =>
      intro p ms' h
      cases p with
      | nil =>
          cases m with
          | system c =>
              rw [List.cons_append]
              rw [alignedFrom] at h ⊢
              exact ih [] ms' h
          | user c =>
              rw [List.cons_append]
              rw [alignedFrom] at h ⊢
              exact ih [] ms' h
          | assistant c tcs =>
              rw [List.cons_append]
              rw [alignedFrom] at h ⊢
              exact ih tcs ms' h
          | tool nm tid c =>
              rw [List.cons_append]
              rw [alignedFrom] at h ⊢
              exact ih [] ms' h
      | cons tc tcs =>
          cases m with
          | tool nm tid c =>
              rw [List.cons_append]
              rw [alignedFrom] at h ⊢
              simp only [Bool.and_eq_true] at h
              rw [h.1.1, h.1.2]
              simp only [Bool.true_and]
              exact ih tcs ms' h.2
          | system c => simp [alignedFrom] at h
          | user c => simp [alignedFrom] at h
          | assistant c' tcs' => simp [alignedFrom] at h

/-- The block of tool messages for a request list satisfies the scan exactly. -/
theorem alignedFrom_toolMsgs (te : ToolExec) : ∀ (tcs : List ToolCall) (rest : List Msg),
    alignedFrom tcs (toolMsgsFor te tcs ++ rest) = alignedFrom [] rest := by
  intro tcs
  induction tcs with
  | nil => intro rest; simp [toolMsgsFor]
  | cons tc tcs ih =>
      intro rest
      simp only [toolMsgsFor, List.map_cons, List.cons_append, alignedFrom,
        beq_self_eq_true, Bool.true_and]
      simpa [toolMsgsFor] using ih rest

/-- Appending a user message preserves alignment. -/
theorem aligned_append_user (ms : List Msg) (u : String)
    (h : alignedMessages ms = true) :
    alignedMessages (ms ++ [Msg.user u]) = true := by
  unfold alignedMessages at h ⊢
  rw [alignedFrom_append ms [] [Msg.user u] h]
  rfl

/-- Appending a terminal assistant message (no tool calls) preserves
alignment. -/
theorem aligned_append_assistant (ms : List Msg) (c : Option String)
    (h : alignedMessages ms = true) :
    alignedMessages (ms ++ [Msg.assistant c []]) = true := by
  unfold alignedMessages at h ⊢
  rw [alignedFrom_append ms [] [Msg.assistant c []] h]
  rfl

/-- Appending a tool-call-bearing assistant message immediately followed by
its full block of matching tool messages preserves alignment. -/
theorem aligned_append_step (te : ToolExec) (ms : List Msg) (c : Option String)
    (tcs : List ToolCall) (h : alignedMessages ms = true) :
    alignedMessages (ms ++ [Msg.assistant c tcs] ++ toolMsgsFor te tcs) = true := by
  unfold alignedMessages at h ⊢
  rw [List.append_assoc]
  rw [alignedFrom_append ms [] ([Msg.assistant c tcs] ++ toolMsgsFor te tcs) h]
  rw [List.singleton_append]
  rw [alignedFrom]
  have h2 := alignedFrom_toolMsgs te tcs []
  simpa using h2

/-- Unfolded form of `processToolCalls`: it appends exactly the block of
matching tool messages, ORs the health flag with the presence of the
designated final-analysis tool, and touches nothing else. -/
theorem processToolCalls_spec (te : ToolExec) : ∀ (tcs : List ToolCall) (st : AgentState),
    processToolCalls te st tcs =
      { st with
          messages := st.messages ++ toolMsgsFor te tcs
          health_analysis_called :=
            st.health_analysis_called ||
              tcs.any (fun tc => tc.name == "evaluate_meal_healthiness") } := by
  intro tcs
  induction tcs with
  | nil => intro st; simp [processToolCalls, toolMsgsFor]
  | cons tc tcs ih =>
      intro st
      rw [processToolCalls]
      rw [ih]
      simp [toolMsgsFor, Bool.or_assoc, List.any_cons]

/-- The step loop preserves the alignment invariant at every iteration:
the post-state of any remaining-fuel run from an aligned history is aligned. -/
theorem run_step_loop_preserves_aligned (te : ToolExec) (oracle : ℕ → ModelResponse) :
    ∀ (fuel i : ℕ) (st : AgentState),
    alignedMessages st.messages = true →
    alignedMessages ((run_step_loop te oracle fuel i st).1).messages = true := by
  intro fuel
  induction fuel with
  | zero =>
      intro i st h
      simpa [run_step_loop] using h
  | succ n ih =>
      intro i st h
      rcases htc : (oracle i).tool_calls with _ | ⟨tc, tcs⟩
      · rw [run_step_loop]
        simp only [htc, List.isEmpty_nil, if_true]
        split
        · exact aligned_append_assistant st.messages (oracle i).content (by simpa using h)
        · exact aligned_append_assistant st.messages (oracle i).content (by simpa using h)
      · rw [run_step_loop]
        simp only [htc, List.isEmpty_cons, if_false, Bool.false_eq_true]
        apply ih
        rw [processToolCalls_spec]
        simp only []
        exact aligned_append_step te st.messages (oracle i).content (tc :: tcs)
          (by simpa using h)

/-- C1: After every completed iteration of the orchestrator's tool loop (and
hence after every `chat` turn), for every assistant message in the session
history carrying `N` tool-call requests, the next `N` messages appended to
the history are tool-role messages whose `tool_call_id` values are exactly
the ids of those `N` requests, in the same order, with no omissions or
duplicates — the `alignedMessages` scan checks precisely this, and it is an
invariant of `run_step_loop` at every fuel level and of `chat`. -/
theorem c1_tool_call_alignment (te : ToolExec) (oracle : ℕ → ModelResponse) :
    (∀ (fuel i : ℕ) (st : AgentState), alignedMessages st.messages = true →
        alignedMessages ((run_step_loop te oracle fuel i st).1).messages = true)
    ∧ (∀ (st : AgentState) (u : String), alignedMessages st.messages = true →
        alignedMessages ((chat te oracle st u).1).messages = true) := by
  refine ⟨run_step_loop_preserves_aligned te oracle, ?_⟩
  intro st u h
  unfold chat
  apply run_step_loop_preserves_aligned
  exact aligned_append_user st.messages u h

/-- Witness for C1 at a concrete session: one turn whose first response
carries two tool calls and whose second response is terminal. -/
theorem c1_tool_call_alignment_witness :
    alignedMessages ((chat teK orMixed st0 "hello").1).messages = true :=
  (c1_tool_call_alignment teK orMixed).2 st0 "hello" (by decide)

/-- When every remaining response carries tool calls, the step loop returns
the fixed fallback string, appends it to the user-facing transcript only,
and leaves the provider-facing history exactly as the tool iterations built
it. -/
theorem run_step_loop_exhausted (te : ToolExec) (oracle : ℕ → ModelResponse) :
    ∀ (n i : ℕ) (st : AgentState),
    (∀ j, j < n → (oracle (i + j)).tool_calls ≠ []) →
    (run_step_loop te oracle n i st).2 = fallbackMessage
    ∧ ((run_step_loop te oracle n i st).1).messages
        = exhaustedMessages te oracle n i st.messages
    ∧ ((run_step_loop te oracle n i st).1).display_history
        = st.display_history ++ [DisplayMsg.mk "assistant" fallbackMessage] := by
  intro n
  induction n with
  | zero =>
      intro i st h
      refine ⟨rfl, rfl, rfl⟩
  | succ n ih =>
      intro i st h
      have h0 : (oracle i).tool_calls ≠ [] := by simpa using h 0 (Nat.succ_pos n)
      rcases htc : (oracle i).tool_calls with _ | ⟨tc, tcs⟩
      · exact absurd htc h0
      · have hsh : ∀ j, j < n → (oracle (i + 1 + j)).tool_calls ≠ [] := by
          intro j hj
          have hx := h (j + 1) (by omega)
          have : i + (j + 1) = i + 1 + j := by omega
          rwa [this] at hx
        rw [run_step_loop]
        simp only [htc, List.isEmpty_cons, Bool.false_eq_true, if_false]
        rw [processToolCalls_spec]
        have hrec := ih (i + 1)
          { st with
              tracker := st.tracker.addFromResponse (oracle i).usage false
              messages := (st.messages ++ [Msg.assistant (oracle i).content (tc :: tcs)])
                ++ toolMsgsFor te (tc :: tcs)
              health_analysis_called :=
                st.health_analysis_called ||
                  (tc :: tcs).any (fun tc => tc.name == "evaluate_meal_healthiness") }
          hsh
        refine ⟨hrec.1, ?_, hrec.2.2⟩
        rw [hrec.2.1]
        rw [exhaustedMessages]
        simp only [htc]

/-- The last of the block of tool messages corresponds to the last request. -/
theorem toolMsgsFor_getLast (te : ToolExec) : ∀ (tcs : List ToolCall),
    (toolMsgsFor te tcs).getLast?
      = tcs.getLast?.map (fun tc => Msg.tool tc.name tc.id (te tc)) := by
  intro tcs
  induction tcs with
  | nil => rfl
  | cons tc tcs ih =>
      cases tcs with
      | nil => rfl
      | cons tc2 tcs2 =>
          simp only [toolMsgsFor, List.map_cons, List.getLast?_cons_cons] at ih ⊢
          simpa [toolMsgsFor] using ih

/-- After `n ≥ 1` tool-call-bearing iterations, the history ends with the
tool message answering the last request of the last response. -/
theorem exhaustedMessages_getLast (te : ToolExec) (oracle : ℕ → ModelResponse) :
    ∀ (n i : ℕ) (ms : List Msg),
    (∀ j, j < n → (oracle (i + j)).tool_calls ≠ []) → 1 ≤ n →
    (exhaustedMessages te oracle n i ms).getLast?
      = ((oracle (i + n - 1)).tool_calls.getLast?).map
          (fun tc => Msg.tool tc.name tc.id (te tc)) := by
  intro n
  induction n with
  | zero => intro i ms h h1; omega
  | succ n ih =>
      intro i ms h h1
      cases n with
      | zero =>
          rw [exhaustedMessages, exhaustedMessages]
          have hne : (oracle i).tool_calls ≠ [] := by simpa using h 0 (by omega)
          have ht : toolMsgsFor te (oracle i).tool_calls ≠ [] := by
            simpa [toolMsgsFor, List.map_eq_nil_iff] using hne
          rw [List.getLast?_append_of_ne_nil _ ht]
          rw [toolMsgsFor_getLast]
          have he0 : i + (0 + 1) - 1 = i := by omega
          rw [he0]
      | succ m =>
          rw [exhaustedMessages]
          have hsh : ∀ j, j < m + 1 → (oracle (i + 1 + j)).tool_calls ≠ [] := by
            intro j hj
            have hx := h (j + 1) (by omega)
            have he : i + (j + 1) = i + 1 + j := by omega
            rwa [he] at hx
          have hr := ih (i + 1)
            (ms ++ [Msg.assistant (oracle i).content (oracle i).tool_calls]
              ++ toolMsgsFor te (oracle i).tool_calls) hsh (by omega)
          rw [hr]
          have he2 : i + 1 + (m + 1) - 1 = i + (m + 1 + 1) - 1 := by omega
          rw [he2]

/-- C8: When the step loop exhausts its bound of 5 model round-trips with
every response carrying tool calls and no terminal answer, `chat` returns
the fixed fallback string and appends it only to the user-facing transcript;
the provider-facing history is exactly the one built by the five tool
iterations, so it ends with the last appended tool result. -/
theorem c8_fallback_on_exhaustion (te : ToolExec) (oracle : ℕ → ModelResponse)
    (st : AgentState) (u : String)
    (h : ∀ i, i < max_tool_loops → (oracle i).tool_calls ≠ []) :
    (chat te oracle st u).2 = fallbackMessage
    ∧ ((chat te oracle st u).1).display_history
        = st.display_history
            ++ [DisplayMsg.mk "user" u, DisplayMsg.mk "assistant" fallbackMessage]
    ∧ ((chat te oracle st u).1).messages
        = exhaustedMessages te oracle max_tool_loops 0 (st.messages ++ [Msg.user u])
    ∧ ((chat te oracle st u).1).messages.getLast?
        = ((oracle 4).tool_calls.getLast?).map
            (fun tc => Msg.tool tc.name tc.id (te tc)) := by
  unfold chat
  have hsh : ∀ j, j < max_tool_loops → (oracle (0 + j)).tool_calls ≠ [] := by
    intro j hj
    simpa using h j hj
  have he := run_step_loop_exhausted te oracle max_tool_loops 0
    { st with
        messages := st.messages ++ [Msg.user u]
        display_history := st.display_history ++ [DisplayMsg.mk "user" u] } hsh
  refine ⟨he.1, ?_, he.2.1, ?_⟩
  · rw [he.2.2]
    simp
  · rw [he.2.1]
    have hg := exhaustedMessages_getLast te oracle max_tool_loops 0
      (st.messages ++ [Msg.user u]) hsh (by norm_num [max_tool_loops])
    simpa [max_tool_loops] using hg

/-- Witness for C8: a session whose model responses all carry a tool call. -/
theorem c8_fallback_on_exhaustion_witness :
    (chat teK orTools st0 "hi").2 = fallbackMessage
    ∧ ((chat teK orTools st0 "hi").1).display_history
        = st0.display_history
            ++ [DisplayMsg.mk "user" "hi", DisplayMsg.mk "assistant" fallbackMessage]
    ∧ ((chat teK orTools st0 "hi").1).messages
        = exhaustedMessages teK orTools max_tool_loops 0 (st0.messages ++ [Msg.user "hi"])
    ∧ ((chat teK orTools st0 "hi").1).messages.getLast?
        = ((orTools 4).tool_calls.getLast?).map
            (fun tc => Msg.tool tc.name tc.id (teK tc)) :=
  c8_fallback_on_exhaustion teK orTools st0 "hi" (by decide)

/-- The step loop appends the token/CO2 report exactly when the terminal
response arrives while `_health_analysis_called` is set and
`_token_report_sent` is not; afterwards `_token_report_sent` is the OR of
its old value and the terminal-time health flag. -/
theorem run_step_loop_report (te : ToolExec) (oracle : ℕ → ModelResponse) :
    ∀ (n i : ℕ) (st : AgentState),
    match loopView oracle n i st.health_analysis_called st.tracker with
    | some (c, h, tr) =>
        ((run_step_loop te oracle n i st).1).token_report_sent
            = (st.token_report_sent || h)
        ∧ (run_step_loop te oracle n i st).2
            = (if h && !st.token_report_sent
               then c ++ "\n\n" ++ render_token_report tr else c)
    | none =>
        ((run_step_loop te oracle n i st).1).token_report_sent = st.token_report_sent
        ∧ (run_step_loop te oracle n i st).2 = fallbackMessage := by
  intro n
  induction n with
  | zero =>
      intro i st
      exact ⟨rfl, rfl⟩
  | succ n ih =>
      intro i st
      rcases htc : (oracle i).tool_calls with _ | ⟨tc, tcs⟩
      · rw [loopView, run_step_loop]
        simp only [htc, List.isEmpty_nil, if_true]
        cases hh : st.health_analysis_called <;> cases hs : st.token_report_sent <;>
          simp [hh, hs]
      · rw [loopView, run_step_loop]
        simp only [htc, List.isEmpty_cons, Bool.false_eq_true, if_false]
        rw [processToolCalls_spec]
        have hrec := ih (i + 1)
          { st with
              tracker := st.tracker.addFromResponse (oracle i).usage false
              messages := (st.messages ++ [Msg.assistant (oracle i).content (tc :: tcs)])
                ++ toolMsgsFor te (tc :: tcs)
              health_analysis_called :=
                st.health_analysis_called ||
                  (tc :: tcs).any (fun tc => tc.name == "evaluate_meal_healthiness") }
        exact hrec

/-- C9: Within one session, the derived environmental-impact summary
(`render_token_report`: token totals converted to CO2 grams and a
car-kilometre equivalent) is appended to a terminal (no-tool-call) answer
exactly when that answer is produced while `evaluate_meal_healthiness` has
been invoked at least once (`h`, the terminal-time health flag, which also
covers invocations in earlier turns) and the report has not been sent yet
(`st.token_report_sent = false`); afterwards the sent flag is
`st.token_report_sent || h`, so it is monotone and a session appends the
report exactly once — to the first such terminal answer, and to no earlier
or later answer.  Exhausted (fallback) turns never append it. -/
theorem c9_report_once (te : ToolExec) (oracle : ℕ → ModelResponse)
    (st : AgentState) (u : String) :
    match loopView oracle max_tool_loops 0 st.health_analysis_called st.tracker with
    | some (c, h, tr) =>
        ((chat te oracle st u).1).token_report_sent = (st.token_report_sent || h)
        ∧ (chat te oracle st u).2
            = (if h && !st.token_report_sent
               then c ++ "\n\n" ++ render_token_report tr else c)
    | none =>
        ((chat te oracle st u).1).token_report_sent = st.token_report_sent
        ∧ (chat te oracle st u).2 = fallbackMessage := by
  unfold chat
  exact run_step_loop_report te oracle max_tool_loops 0
    { st with
        messages := st.messages ++ [Msg.user u]
        display_history := st.display_history ++ [DisplayMsg.mk "user" u] }

/-- C2: For every food item processed by the matching engine, the produced
result has `source = database` iff `matched_item` and `emissions_kg_co2` are
both populated and `similarity_score` is at least the 0.60 threshold; and a
result whose similarity is below 0.60 never carries `source = database` and
never has `matched_item` or emissions populated. -/
theorem c2_database_iff (store : Store) (name : String) (mass : ℚ) :
    ((lookup_item store name mass).source = "database"
      ↔ (lookup_item store name mass).matched_item.isSome = true
        ∧ (lookup_item store name mass).emissions_kg_co2.isSome = true
        ∧ ∃ s, (lookup_item store name mass).similarity_score = some s
            ∧ SIMILARITY_THRESHOLD ≤ s)
    ∧ (∀ s, (lookup_item store name mass).similarity_score = some s →
        s < SIMILARITY_THRESHOLD →
        (lookup_item store name mass).source ≠ "database"
        ∧ (lookup_item store name mass).matched_item = none
        ∧ (lookup_item store name mass).emissions_kg_co2 = none) := by
  unfold lookup_item
  by_cases h1 : name = "" ∨ mass ≤ 0
  · simp [h1]
  · simp only [if_neg h1]
    cases hres : store name with
    | error e => simp
    | ok hits =>
        cases hits with
        | nil => simp
        | cons hit rest =>
            by_cases h2 : 1 - hit.distance / 2 < SIMILARITY_THRESHOLD
            · simp only [if_pos h2]
              constructor
              · simp
              · intro s hs hlt
                simp at hs ⊢
            · simp only [if_neg h2]
              constructor
              · simp only [Option.isSome_some, true_and]
                constructor
                · intro _
                  exact ⟨1 - hit.distance / 2, rfl, le_of_not_lt h2⟩
                · intro _
                  trivial
              · intro s hs hlt
                simp only [Option.some.injEq] at hs
                rw [hs] at h2
                exact absurd hlt h2

/-- Witness for C2 below the threshold: distance 1 gives similarity 0.5,
so the result is not from the database and carries no match or emissions. -/
theorem c2_database_iff_witness :
    (lookup_item storeLow "tofu" 100).source ≠ "database"
    ∧ (lookup_item storeLow "tofu" 100).matched_item = none
    ∧ (lookup_item storeLow "tofu" 100).emissions_kg_co2 = none := by
  have hs : (lookup_item storeLow "tofu" 100).similarity_score = some (1/2) := by
    norm_num [lookup_item, storeLow, SIMILARITY_THRESHOLD]
    rw [if_neg (by decide : ¬("tofu" = ""))]
  exact (c2_database_iff storeLow "tofu" 100).2 (1/2) hs
    (by norm_num [SIMILARITY_THRESHOLD])

/-- Counterexample for C3: with the vector store uninitialized
(`_vectorstore is None`), the batch lookup raises `RuntimeError`
(rag_food_tool.py line 114) — an exception does propagate to the caller. -/
theorem c3_counterexample :
    lookup_items_batch none ["apple"] [(100 : ℚ)]
      = .error "Vectorstore not initialized. Call warm_up_rag() first." := rfl

/-- C3 (amended): provided the vector store has been initialized, no
exception propagates from the batch lookup: the run succeeds and is exactly
the independent per-item map (so one item's failure cannot abort the rest),
and a per-item lookup exception is caught and converted into an
`unknown` result carrying the exception text in `notes`. -/
theorem c3_no_exception_when_initialized (store : Store) (names : List String)
    (masses_g : List ℚ) :
    lookup_items_batch (some store) names masses_g
      = .ok ((names.zip masses_g).map fun p => lookup_item store p.1 p.2)
    ∧ ∀ (name : String) (mass : ℚ) (e : String), name ≠ "" → 0 < mass →
        store name = .error e →
        (lookup_item store name mass).source = "unknown"
        ∧ (lookup_item store name mass).notes = some ("Error during lookup: " ++ e)
        ∧ (lookup_item store name mass).emissions_kg_co2 = none := by
  constructor
  · unfold lookup_items_batch
    by_cases h : names = []
    · subst h
      simp
    · simp [h]
  · intro name mass e hn hm hs
    have h1 : ¬(name = "" ∨ mass ≤ 0) := by
      rintro (h | h)
      · exact hn h
      · exact absurd hm (not_lt.mpr h)
    unfold lookup_item
    rw [if_neg h1, hs]
    exact ⟨rfl, rfl, rfl⟩

/-- Witness for C3 (amended): a store whose lookup raises is converted into
an `unknown` result with the exception text. -/
theorem c3_no_exception_when_initialized_witness :
    (lookup_item storeErr "apple" 100).source = "unknown"
    ∧ (lookup_item storeErr "apple" 100).notes
        = some ("Error during lookup: " ++ "boom")
    ∧ (lookup_item storeErr "apple" 100).emissions_kg_co2 = none :=
  (c3_no_exception_when_initialized storeErr [] []).2 "apple" 100 "boom"
    (by decide) (by norm_num) rfl

/-- C7: A payload that is malformed JSON, or a JSON-object payload whose
`items` field is present and not a list, yields a structured error result as
the return value — no exception is raised and no partial report is
produced.  This holds for any vector-store state. -/
theorem c7_structured_errors (vs : Option Store)
    (jsonLoads : String → Except String JVal) (payload : String) :
    (∀ e, jsonLoads payload = .error e →
        compute_meal_footprint vs jsonLoads payload
          = .ok (.errStr ("Invalid JSON payload: " ++ e) payload))
    ∧ (∀ fs v, jsonLoads payload = .ok (.obj fs) → objGet fs "items" = some v →
        (∀ l, v ≠ .arr l) →
        compute_meal_footprint vs jsonLoads payload
          = .ok (.errJson "Expected \x27items\x27 to be a list." (.obj fs))) := by
  constructor
  · intro e he
    unfold compute_meal_footprint
    rw [he]
  · intro fs v hok hv hnl
    unfold compute_meal_footprint
    rw [hok]
    simp only [dictGet, hv, Option.getD_some]

/-- Witness for C7: a malformed payload and a payload whose `items` is a
number both return structured error objects. -/
theorem c7_structured_errors_witness :
    compute_meal_footprint (some storeA) jlBad "notjson"
      = .ok (.errStr ("Invalid JSON payload: " ++ "Expecting value") "notjson")
    ∧ compute_meal_footprint (some storeA) jlNotList "p"
      = .ok (.errJson "Expected \x27items\x27 to be a list." (.obj [("items", .num 3)])) := by
  constructor
  · exact (c7_structured_errors (some storeA) jlBad "notjson").1 "Expecting value" rfl
  · exact (c7_structured_errors (some storeA) jlNotList "p").2 [("items", .num 3)]
      (.num 3) rfl rfl (by intro l h; cases h)

/-- C10: A syntactically valid JSON object payload with no `items` key and no
`meal_label` key yields a well-formed report with label `"meal"`, an empty
items array, a trusted total of 0, and empty notes — a payload with no items
is not an error (the vector store must be initialized, as the batch lookup
checks it before the empty-list early return). -/
theorem c10_missing_keys_defaults (store : Store)
    (jsonLoads : String → Except String JVal) (payload : String)
    (fs : List (String × JVal))
    (hok : jsonLoads payload = .ok (.obj fs))
    (hml : objGet fs "meal_label" = none)
    (hits : objGet fs "items" = none) :
    compute_meal_footprint (some store) jsonLoads payload
      = .ok (.report
          { meal_label := .str "meal"
            items := []
            total_emissions_kg_co2_database_only := 0
            notes := "" }) := by
  unfold compute_meal_footprint
  rw [hok]
  simp only [dictGet, hml, hits, Option.getD_none]
  rfl

/-- Witness for C10 at the empty-object payload. -/
theorem c10_missing_keys_defaults_witness :
    compute_meal_footprint (some storeA) jlEmpty "p"
      = .ok (.report
          { meal_label := .str "meal"
            items := []
            total_emissions_kg_co2_database_only := 0
            notes := "" }) :=
  c10_missing_keys_defaults storeA jlEmpty "p" [] rfl rfl rfl

/-! ## Matching-engine lemmas -/

/-- With an initialized store the batch lookup is the per-item map. -/
theorem lookup_items_batch_ok (store : Store) (names : List String)
    (masses : List ℚ) :
    lookup_items_batch (some store) names masses
      = .ok ((names.zip masses).map fun p => lookup_item store p.1 p.2) := by
  unfold lookup_items_batch
  by_cases h : names = []
  · subst h
    simp
  · simp [h]

/-- Every per-item result is tagged `unknown` or `database`. -/
theorem lookup_item_source (store : Store) (name : String) (mass : ℚ) :
    (lookup_item store name mass).source = "unknown"
    ∨ (lookup_item store name mass).source = "database" := by
  unfold lookup_item
  by_cases h1 : name = "" ∨ mass ≤ 0
  · left
    simp [h1]
  · simp only [if_neg h1]
    cases hres : store name with
    | error e => left; rfl
    | ok hits =>
        cases hits with
        | nil => left; rfl
        | cons hit rest =>
            by_cases h2 : 1 - hit.distance / 2 < SIMILARITY_THRESHOLD
            · left
              simp [h2]
            · right
              simp [h2]

/-- A `database` result carries the matched factor and the emissions computed
as factor times mass in kilograms. -/
theorem lookup_item_db (store : Store) (name : String) (mass : ℚ) :
    (lookup_item store name mass).source = "database" →
    ∃ cf, (lookup_item store name mass).cf_kg_per_kg = some cf
      ∧ (lookup_item store name mass).emissions_kg_co2
          = some (cf * ((lookup_item store name mass).mass_g / 1000)) := by
  have hne : ¬("unknown" = "database") := by decide
  unfold lookup_item
  by_cases h1 : name = "" ∨ mass ≤ 0
  · simp only [if_pos h1]
    intro h
    exact absurd h hne
  · simp only [if_neg h1]
    cases hres : store name with
    | error e =>
        intro h
        exact absurd h hne
    | ok hits =>
        cases hits with
        | nil =>
            intro h
            exact absurd h hne
        | cons hit rest =>
            by_cases h2 : 1 - hit.distance / 2 < SIMILARITY_THRESHOLD
            · simp only [if_pos h2]
              intro h
              exact absurd h hne
            · simp only [if_neg h2]
              intro h
              exact ⟨hit.cf_kg_per_kg, rfl, rfl⟩

/-- An `unknown` result never carries emissions. -/
theorem lookup_item_unknown_emissions (store : Store) (name : String) (mass : ℚ) :
    (lookup_item store name mass).source = "unknown" →
    (lookup_item store name mass).emissions_kg_co2 = none := by
  unfold lookup_item
  by_cases h1 : name = "" ∨ mass ≤ 0
  · simp only [if_pos h1]
    intro h
    trivial
  · simp only [if_neg h1]
    cases hres : store name with
    | error e =>
        intro h
        rfl
    | ok hits =>
        cases hits with
        | nil =>
            intro h
            rfl
        | cons hit rest =>
            by_cases h2 : 1 - hit.distance / 2 < SIMILARITY_THRESHOLD
            · simp only [if_pos h2]
              intro h
              trivial
            · simp only [if_neg h2]
              intro h
              exact absurd h (by decide : ¬("database" = "unknown"))

/-- The trusted-total fold from any accumulator equals the accumulator plus
the sum over the `database` items, provided `database` items carry
emissions. -/
theorem totalDb_foldl : ∀ (rs : List MatchResult) (a : ℚ),
    (∀ r ∈ rs, r.source = "database" → r.emissions_kg_co2.isSome = true) →
    rs.foldl
        (fun acc r =>
          if r.source == "database" && r.emissions_kg_co2.isSome then
            acc + r.emissions_kg_co2.getD 0
          else acc)
        a
      = a + ((rs.filter (fun m => m.source == "database")).map
          (fun m => m.emissions_kg_co2.getD 0)).sum := by
  intro rs
  induction rs with
  | nil =>
      intro a h
      simp
  | cons r rs ih =>
      intro a h
      have hr := h r (List.mem_cons_self r rs)
      have ht : ∀ x ∈ rs, x.source = "database" → x.emissions_kg_co2.isSome = true :=
        fun x hx => h x (List.mem_cons_of_mem r hx)
      simp only [List.foldl_cons, List.filter_cons]
      by_cases hdb : r.source = "database"
      · have hsome := hr hdb
        have hb : (r.source == "database") = true := beq_iff_eq.mpr hdb
        rw [ih _ ht, hb, hsome]
        simp [add_assoc]
      · have hb : (r.source == "database") = false := by
          simpa using hdb
        rw [ih _ ht, hb]
        simp

/-- `totalDb` is the sum of emissions over the `database` items. -/
theorem totalDb_eq (rs : List MatchResult)
    (h : ∀ r ∈ rs, r.source = "database" → r.emissions_kg_co2.isSome = true) :
    totalDb rs = ((rs.filter (fun m => m.source == "database")).map
        (fun m => m.emissions_kg_co2.getD 0)).sum := by
  unfold totalDb
  simpa using totalDb_foldl rs 0 h

/-- Inversion: a successful report produced by `compute_meal_footprint` has
its trusted total and notes computed from its items, and every item is a
matching-engine result. -/
theorem compute_report_inv (store : Store)
    (jsonLoads : String → Except String JVal) (payload : String) (r : MealOut)
    (h : compute_meal_footprint (some store) jsonLoads payload = .ok (.report r)) :
    r.total_emissions_kg_co2_database_only = totalDb r.items
    ∧ r.notes = (if anyUnknown r.items then unknownItemsNote else "")
    ∧ ∀ m ∈ r.items, ∃ nm ms, m = lookup_item store nm ms := by
  unfold compute_meal_footprint at h
  cases hjl : jsonLoads payload with
  | error e =>
      rw [hjl] at h
      simp at h
  | ok data =>
      rw [hjl] at h
      cases data with
      | null => simp at h
      | bool b => simp at h
      | num q => simp at h
      | str s => simp at h
      | arr l => simp at h
      | obj fs =>
          cases hv : dictGet fs "items" (.arr []) with
          | null => simp [hv] at h
          | bool b => simp [hv] at h
          | num q => simp [hv] at h
          | str s => simp [hv] at h
          | obj fs2 => simp [hv] at h
          | arr l =>
              cases hc : collectItems l with
              | error e => simp [hv, hc] at h
              | ok pairs =>
                  simp only [hv, hc, lookup_items_batch_ok] at h
                  simp only [Except.ok.injEq, ToolOut.report.injEq] at h
                  subst h
                  refine ⟨rfl, rfl, ?_⟩
                  intro m hm
                  simp only [List.mem_map] at hm
                  obtain ⟨p, hp, rfl⟩ := hm
                  exact ⟨p.1, p.2, rfl⟩

/-- Scenario A evaluated: `compute_meal_footprint` on 120 g of
`pork sausage` with factor 5.0 and similarity 0.75 yields `reportA`. -/
theorem computeA_eval :
    compute_meal_footprint (some storeA) jlA "p" = .ok (.report reportA) := by
  norm_num +decide [compute_meal_footprint, jlA, dictGet, objGet, collectItems,
    parseItem, pyStr, pyFloat, pyStrip, lookup_items_batch, lookup_item, storeA,
    SIMILARITY_THRESHOLD, totalDb, anyUnknown, reportA]

/-- Scenario B evaluated: against `storeLow` the same payload yields
`reportU` with an unknown item. -/
theorem computeU_eval :
    compute_meal_footprint (some storeLow) jlA "p" = .ok (.report reportU) := by
  norm_num +decide [compute_meal_footprint, jlA, dictGet, objGet, collectItems,
    parseItem, pyStr, pyFloat, pyStrip, lookup_items_batch, lookup_item, storeLow,
    SIMILARITY_THRESHOLD, totalDb, anyUnknown, reportU, lowSimilarityNote,
    unknownItemsNote]

/-- C4: In every report produced by the meal-footprint computation, the
trusted total equals the sum of `emissions_kg_co2` over exactly the
`source = database` items (unknown items contribute 0 regardless of mass),
and each `database` item's emissions equal its matched emission factor times
`mass_g / 1000`. -/
theorem c4_trusted_total (store : Store)
    (jsonLoads : String → Except String JVal) (payload : String) (r : MealOut)
    (h : compute_meal_footprint (some store) jsonLoads payload = .ok (.report r)) :
    r.total_emissions_kg_co2_database_only
      = ((r.items.filter (fun m => m.source == "database")).map
          (fun m => m.emissions_kg_co2.getD 0)).sum
    ∧ ∀ m ∈ r.items, m.source = "database" →
        ∃ cf, m.cf_kg_per_kg = some cf
          ∧ m.emissions_kg_co2 = some (cf * (m.mass_g / 1000)) := by
  obtain ⟨ht, hn, hm⟩ := compute_report_inv store jsonLoads payload r h
  have hsome : ∀ m ∈ r.items, m.source = "database" →
      m.emissions_kg_co2.isSome = true := by
    intro m hmem hdb
    obtain ⟨nm, ms, hme⟩ := hm m hmem
    subst hme
    obtain ⟨cf, hcf, he⟩ := lookup_item_db store nm ms hdb
    rw [he]
    rfl
  refine ⟨?_, ?_⟩
  · rw [ht]
    exact totalDb_eq r.items hsome
  · intro m hmem hdb
    obtain ⟨nm, ms, hme⟩ := hm m hmem
    subst hme
    exact lookup_item_db store nm ms hdb

/-- Witness for C4 at Scenario A: the 0.6 kg total is the sum over the one
database item, whose emissions are 5.0 × (120/1000). -/
theorem c4_trusted_total_witness :
    reportA.total_emissions_kg_co2_database_only
      = ((reportA.items.filter (fun m => m.source == "database")).map
          (fun m => m.emissions_kg_co2.getD 0)).sum
    ∧ ∀ m ∈ reportA.items, m.source = "database" →
        ∃ cf, m.cf_kg_per_kg = some cf
          ∧ m.emissions_kg_co2 = some (cf * (m.mass_g / 1000)) :=
  c4_trusted_total storeA jlA "p" reportA computeA_eval

/-- C6: In every report produced by the meal-footprint computation, the
unknown-items note (the report's `has_unknown_items` signal) is set iff some
item has `source = unknown`, and unknown items carry no emissions. -/
theorem c6_has_unknown_items (store : Store)
    (jsonLoads : String → Except String JVal) (payload : String) (r : MealOut)
    (h : compute_meal_footprint (some store) jsonLoads payload = .ok (.report r)) :
    ((r.notes ≠ "") ↔ ∃ m ∈ r.items, m.source = "unknown")
    ∧ ∀ m ∈ r.items, m.source = "unknown" → m.emissions_kg_co2 = none := by
  obtain ⟨ht, hn, hm⟩ := compute_report_inv store jsonLoads payload r h
  have hchar : anyUnknown r.items = true ↔ ∃ m ∈ r.items, m.source = "unknown" := by
    unfold anyUnknown
    rw [List.any_eq_true]
    constructor
    · rintro ⟨m, hmem, hcond⟩
      refine ⟨m, hmem, ?_⟩
      obtain ⟨nm, ms, hme⟩ := hm m hmem
      subst hme
      rcases lookup_item_source store nm ms with hs | hs
      · exact hs
      · obtain ⟨cf, hcf, he⟩ := lookup_item_db store nm ms hs
        rw [Bool.not_eq_eq_eq_not] at hcond
        rw [hs, he] at hcond
        simp at hcond
    · rintro ⟨m, hmem, hs⟩
      refine ⟨m, hmem, ?_⟩
      rw [Bool.not_eq_eq_eq_not]
      rw [hs]
      simp
  constructor
  · rw [hn]
    by_cases ha : anyUnknown r.items = true
    · rw [if_pos ha]
      constructor
      · intro _
        exact hchar.mp ha
      · intro _
        decide
    · rw [if_neg ha]
      constructor
      · intro hfalse
        exact absurd rfl hfalse
      · intro hex
        exact absurd (hchar.mpr hex) ha
  · intro m hmem hs
    obtain ⟨nm, ms, hme⟩ := hm m hmem
    subst hme
    exact lookup_item_unknown_emissions store nm ms hs

/-- Witness for C6 at Scenario B: the below-threshold item is unknown with
null emissions and the unknown-items note is set. -/
theorem c6_has_unknown_items_witness :
    ((reportU.notes ≠ "") ↔ ∃ m ∈ reportU.items, m.source = "unknown")
    ∧ ∀ m ∈ reportU.items, m.source = "unknown" → m.emissions_kg_co2 = none :=
  c6_has_unknown_items storeLow jlA "p" reportU computeU_eval

/-- Counterexample for C5: the payload item has `mass_g = -5` — present and
nonzero, neither absent nor zero — together with `mass_ml = 200`, yet the
computation uses `mass_ml` as the effective mass: the item is matched with
`mass_g = 200` (the code's condition, rag_food_tool.py line 213, is
`mass_g <= 0`, not "absent or zero").  Under the claim the item would have
been dropped as non-positive. -/
theorem c5_counterexample :
    compute_meal_footprint (some storeA) jlMl "p" = .ok (.report reportMl)
    ∧ reportMl.items.map (fun m => m.mass_g) = [200]
    ∧ ¬((-5 : ℚ) = 0) := by
  refine ⟨?_, rfl, by norm_num⟩
  norm_num +decide [compute_meal_footprint, jlMl, dictGet, objGet, collectItems,
    parseItem, pyStr, pyFloat, pyStrip, lookup_items_batch, lookup_item, storeA,
    SIMILARITY_THRESHOLD, totalDb, anyUnknown, reportMl]

/-- C5 (amended): for an item of the meal payload, `mass_ml` is used as the
effective mass in grams (density 1 g/ml) exactly when `mass_g` is absent,
zero, or negative — that is, non-positive — and `mass_ml` is positive; when
a positive `mass_g` is given, `mass_ml` is ignored; when neither is
positive the item is dropped. -/
theorem c5_mass_ml_fallback (nm : String) (g ml : ℚ)
    (hnm : ¬(pyStrip nm = "")) :
    (0 < g →
      parseItem (.obj [("name", .str nm), ("mass_g", .num g), ("mass_ml", .num ml)])
        = .ok (some (pyStrip nm, g)))
    ∧ (g ≤ 0 → 0 < ml →
      parseItem (.obj [("name", .str nm), ("mass_g", .num g), ("mass_ml", .num ml)])
        = .ok (some (pyStrip nm, ml)))
    ∧ (0 < ml →
      parseItem (.obj [("name", .str nm), ("mass_ml", .num ml)])
        = .ok (some (pyStrip nm, ml)))
    ∧ (g ≤ 0 → ml ≤ 0 →
      parseItem (.obj [("name", .str nm), ("mass_g", .num g), ("mass_ml", .num ml)])
        = .ok none) := by
  have hred : ∀ g2 ml2 : ℚ,
      parseItem (.obj [("name", .str nm), ("mass_g", .num g2), ("mass_ml", .num ml2)])
        = (if pyStrip nm = "" ∨ (if g2 ≤ 0 ∧ 0 < ml2 then ml2 else g2) ≤ 0 then
            Except.ok none
          else .ok (some (pyStrip nm, if g2 ≤ 0 ∧ 0 < ml2 then ml2 else g2))) := by
    intro g2 ml2
    simp [parseItem, dictGet, objGet, pyStr, pyFloat]
  have hred2 : ∀ ml2 : ℚ,
      parseItem (.obj [("name", .str nm), ("mass_ml", .num ml2)])
        = (if pyStrip nm = "" ∨ (if (0 : ℚ) ≤ 0 ∧ 0 < ml2 then ml2 else 0) ≤ 0 then
            Except.ok none
          else .ok (some (pyStrip nm, if (0 : ℚ) ≤ 0 ∧ 0 < ml2 then ml2 else 0))) := by
    intro ml2
    simp [parseItem, dictGet, objGet, pyStr, pyFloat]
  refine ⟨?_, ?_, ?_, ?_⟩
  · intro hg
    rw [hred]
    rw [if_neg ((by rintro ⟨h1, _⟩; exact absurd hg (not_lt.mpr h1)) :
      ¬(g ≤ 0 ∧ 0 < ml))]
    rw [if_neg ((by rintro (h1 | h1); exacts [hnm h1, absurd hg (not_lt.mpr h1)]) :
      ¬(pyStrip nm = "" ∨ g ≤ 0))]
  · intro hg hml
    rw [hred]
    rw [if_pos (⟨hg, hml⟩ : g ≤ 0 ∧ 0 < ml)]
    rw [if_neg ((by rintro (h1 | h1); exacts [hnm h1, absurd hml (not_lt.mpr h1)]) :
      ¬(pyStrip nm = "" ∨ ml ≤ 0))]
  · intro hml
    rw [hred2]
    rw [if_pos (⟨le_refl 0, hml⟩ : (0 : ℚ) ≤ 0 ∧ 0 < ml)]
    rw [if_neg ((by rintro (h1 | h1); exacts [hnm h1, absurd hml (not_lt.mpr h1)]) :
      ¬(pyStrip nm = "" ∨ ml ≤ 0))]
  · intro hg hml
    rw [hred]
    rw [if_neg ((by rintro ⟨_, h2⟩; exact absurd h2 (not_lt.mpr hml)) :
      ¬(g ≤ 0 ∧ 0 < ml))]
    rw [if_pos (Or.inr hg : pyStrip nm = "" ∨ g ≤ 0)]

/-- Witness for C5 (amended): a positive `mass_g = 120` wins over
`mass_ml = 200`. -/
theorem c5_mass_ml_fallback_witness :
    parseItem (.obj [("name", .str "soup"), ("mass_g", .num 120),
        ("mass_ml", .num 200)])
      = .ok (some (pyStrip "soup", 120)) :=
  (c5_mass_ml_fallback "soup" 120 200 (by decide)).1 (by norm_num)
